import Mathlib

/-!
Verification of the universal remote shutdown server
(`scripts/remote-shutdown/universal-shutdown-server.py`).

The embedding models the server's configuration record, the API-key
extraction and check performed by the `require_api_key` decorator, the
countdown-and-execute behaviour of `shutdown_system` / `restart_system`
(with `os.system` abstracted as an oracle that either raises or returns
the exit status of the spawned command), the `/shutdown`, `/restart` and
`/config` route handlers, and the command-line override logic of `main`.
-/

/-- The mutable `CONFIG` dictionary of the server. `port` and
`shutdown_delay` are `Int` because the CLI parser (`type=int`) can write
arbitrary integers into them. -/
structure Config where
  port : Int
  host : String
  api_key : String
  device_name : String
  shutdown_delay : Int
  log_file : String
deriving DecidableEq

/-- The initial `CONFIG` literal (lines 36-43). `device_name` is the
fallback value `'Unknown'` used when neither the `COMPUTERNAME` nor the
`HOSTNAME` environment variable is set. -/
def defaultConfig : Config :=
  { port := 5000
    host := "0.0.0.0"
    api_key := "change-this-secret-key"
    device_name := "Unknown"
    shutdown_delay := 5
    log_file := "shutdown-server.log" }

/-- Python truthiness of the optional `api_key` value used in
`require_api_key`: `None` and the empty string are falsy. -/
def truthy : Option String → Bool
  | none => false
  | some s => !s.isEmpty

/-- Credential extraction of `require_api_key` (lines 83-92): the
`X-API-Key` header, then the `api_key` query parameter, then - only when
the request has a JSON body - the body's `api_key` field; each step runs
only when the value so far is falsy. -/
def extract_api_key (header query : Option String) (isJson : Bool)
    (bodyKey : Option String) : Option String :=
  let k := header
  let k := if truthy k then k else query
  if truthy k then k else if isJson then bodyKey else k

/-- The authentication check on line 94, `api_key != CONFIG['api_key']`,
phrased positively: the presented optional value must equal the secret
(`None` compares unequal to every string in Python). -/
def authenticate (presented : Option String) (secret : String) : Bool :=
  presented == some secret

/-- Observable events of a countdown thread: a logged tick reporting the
seconds remaining, or an invocation of `os.system` with a command. -/
inductive Event where
  | tick (secondsRemaining : Int)
  | exec (cmd : String)
deriving DecidableEq

/-- The power actions a spawned thread can run. -/
inductive PowerAction where
  | shutdown
  | restart
deriving DecidableEq

/-- `[n, n-1, ..., 1]` as integers. -/
def ticksFrom : Nat → List Int
  | 0 => []
  | n + 1 => ((n + 1 : Nat) : Int) :: ticksFrom n

/-- The values logged by `for i in range(CONFIG['shutdown_delay'], 0, -1)`
(lines 107-109 and 140-142): `delay, delay-1, ..., 1`, and nothing when
the delay is zero or negative. -/
def countdownTicks (delay : Int) : List Int :=
  ticksFrom delay.toNat

/-- Platform dispatch of `shutdown_system` (lines 114-127): the command
handed to `os.system`, or `none` on an unsupported platform. -/
def shutdownCommand (platform : String) : Option String :=
  if platform = "win32" then
    some "shutdown /s /t 1 /c \"Remote shutdown via Discord Maid Bot\""
  else if platform = "linux" then
    some "sudo shutdown -h now"
  else if platform = "darwin" then
    some "sudo shutdown -h now"
  else
    none

/-- Platform dispatch of `restart_system` (lines 147-160). -/
def restartCommand (platform : String) : Option String :=
  if platform = "win32" then
    some "shutdown /r /t 1 /c \"Remote restart via Discord Maid Bot\""
  else if platform = "linux" then
    some "sudo shutdown -r now"
  else if platform = "darwin" then
    some "sudo shutdown -r now"
  else
    none

/-- `shutdown_system` (lines 102-132). `osSystem` abstracts `os.system`:
`Except.error ()` when the call raises an exception (caught by the
`try`/`except`, returning `False`), `Except.ok status` when it returns
the spawned command's exit status - a value the code never inspects.
Returns the trace of observable events and the boolean result. -/
def shutdown_system (cfg : Config) (platform : String)
    (osSystem : String → Except Unit Int) : List Event × Bool :=
  let ticks := (countdownTicks cfg.shutdown_delay).map Event.tick
  match shutdownCommand platform with
  | some cmd =>
    match osSystem cmd with
    | Except.ok _ => (ticks ++ [Event.exec cmd], true)
    | Except.error _ => (ticks ++ [Event.exec cmd], false)
  | none => (ticks, false)

/-- `restart_system` (lines 135-165), same structure as
`shutdown_system`. -/
def restart_system (cfg : Config) (platform : String)
    (osSystem : String → Except Unit Int) : List Event × Bool :=
  let ticks := (countdownTicks cfg.shutdown_delay).map Event.tick
  match restartCommand platform with
  | some cmd =>
    match osSystem cmd with
    | Except.ok _ => (ticks ++ [Event.exec cmd], true)
    | Except.error _ => (ticks ++ [Event.exec cmd], false)
  | none => (ticks, false)

/-- The two JSON response shapes a power route can produce: the 401
`Unauthorized` body from `require_api_key` (line 96) and the 200 success
body of `shutdown` / `restart` (lines 180-186 and 205-211). -/
inductive RouteResponse where
  | unauthorized
  | accepted (message device : String) (delay : Int) (timestamp : String)
deriving DecidableEq

/-- HTTP status code attached to each response shape. -/
def statusCode : RouteResponse → Nat
  | RouteResponse.unauthorized => 401
  | RouteResponse.accepted _ _ _ _ => 200

/-- The `/shutdown` handler wrapped by `require_api_key` (lines 168-186):
on a valid key it spawns one thread whose target is `shutdown_system`
and immediately returns the success body; otherwise it returns the 401
body and spawns nothing. The second component lists the threads
spawned. -/
def shutdown_route (cfg : Config) (header query : Option String)
    (isJson : Bool) (bodyKey : Option String) (now : String) :
    RouteResponse × List PowerAction :=
  if authenticate (extract_api_key header query isJson bodyKey) cfg.api_key then
    (RouteResponse.accepted "Shutdown initiated" cfg.device_name
      cfg.shutdown_delay now, [PowerAction.shutdown])
  else
    (RouteResponse.unauthorized, [])

/-- The `/restart` handler wrapped by `require_api_key`
(lines 193-211). -/
def restart_route (cfg : Config) (header query : Option String)
    (isJson : Bool) (bodyKey : Option String) (now : String) :
    RouteResponse × List PowerAction :=
  if authenticate (extract_api_key header query isJson bodyKey) cfg.api_key then
    (RouteResponse.accepted "Restart initiated" cfg.device_name
      cfg.shutdown_delay now, [PowerAction.restart])
  else
    (RouteResponse.unauthorized, [])

/-- Runs one spawned thread's target function. -/
def run_job (cfg : Config) (platform : String)
    (osSystem : String → Except Unit Int) : PowerAction → List Event × Bool
  | PowerAction.shutdown => shutdown_system cfg platform osSystem
  | PowerAction.restart => restart_system cfg platform osSystem

/-- End-to-end handling of one `/shutdown` request: the response sent to
the caller and the events of the threads the request spawned. -/
def serve_shutdown (cfg : Config) (platform : String)
    (osSystem : String → Except Unit Int) (header query : Option String)
    (isJson : Bool) (bodyKey : Option String) (now : String) :
    RouteResponse × List Event :=
  let r := shutdown_route cfg header query isJson bodyKey now
  (r.1, (r.2.map fun a => (run_job cfg platform osSystem a).1).flatten)

/-- End-to-end handling of one `/restart` request. -/
def serve_restart (cfg : Config) (platform : String)
    (osSystem : String → Except Unit Int) (header query : Option String)
    (isJson : Bool) (bodyKey : Option String) (now : String) :
    RouteResponse × List Event :=
  let r := restart_route cfg header query isJson bodyKey now
  (r.1, (r.2.map fun a => (run_job cfg platform osSystem a).1).flatten)

/-- Sequential processing of `/shutdown` requests, each given as the
`X-API-Key` header value and a timestamp. The handler keeps no state
between requests; spawned jobs simply accumulate. -/
def processShutdownRequests (cfg : Config)
    (reqs : List (Option String × String)) :
    List RouteResponse × List PowerAction :=
  match reqs with
  | [] => ([], [])
  | (hdr, now) :: rest =>
    let r := shutdown_route cfg hdr none false none now
    let rs := processShutdownRequests cfg rest
    (r.1 :: rs.1, r.2 ++ rs.2)

/-- The `/config` handler body (lines 240-246): a copy of the
configuration with the `api_key` field overwritten by the mask. -/
def get_config (cfg : Config) : Config :=
  { cfg with api_key := "***hidden***" }

/-- The string values appearing in a serialized configuration
response. -/
def configStrings (c : Config) : List String :=
  [c.host, c.api_key, c.device_name, c.log_file]

/-- Parsed command-line arguments of `main` (lines 251-257); every
field is optional. -/
structure Args where
  port : Option Int
  api_key : Option String
  device_name : Option String
  delay : Option Int

/-- `if args.port: CONFIG['port'] = args.port` (lines 263-264): Python
truthiness skips both `None` and `0`. -/
def overridePort (cfg : Config) : Option Int → Config
  | some v => if v = 0 then cfg else { cfg with port := v }
  | none => cfg

/-- `if args.api_key: ...` (lines 265-266): `None` and `""` are
skipped. -/
def overrideApiKey (cfg : Config) : Option String → Config
  | some k => if k.isEmpty then cfg else { cfg with api_key := k }
  | none => cfg

/-- `if args.device_name: ...` (lines 267-268). -/
def overrideDeviceName (cfg : Config) : Option String → Config
  | some d => if d.isEmpty then cfg else { cfg with device_name := d }
  | none => cfg

/-- `if args.delay: CONFIG['shutdown_delay'] = args.delay`
(lines 269-270): a parsed delay of `0` is falsy and ignored. -/
def overrideDelay (cfg : Config) : Option Int → Config
  | some d => if d = 0 then cfg else { cfg with shutdown_delay := d }
  | none => cfg

/-- The command-line override block of `main` (lines 262-270). -/
def applyOverrides (cfg : Config) (a : Args) : Config :=
  overrideDelay
    (overrideDeviceName (overrideApiKey (overridePort cfg a.port) a.api_key)
      a.device_name)
    a.delay

lemma ticksFrom_length (n : Nat) : (ticksFrom n).length = n := by
  induction n with
  | zero => rfl
  | succ k ih => simp [ticksFrom, ih]

lemma ticksFrom_head (n : Nat) (h : 0 < n) :
    (ticksFrom n).head? = some (n : Int) := by
  cases n with
  | zero => exact absurd h (by simp)
  | succ k => rfl

lemma ticksFrom_getLast (n : Nat) (h : 0 < n) :
    (ticksFrom n).getLast? = some 1 := by
  induction n with
  | zero => exact absurd h (by simp)
  | succ k ih =>
    cases k with
    | zero => rfl
    | succ m =>
      rw [show ticksFrom (m + 1 + 1)
            = ((m + 2 : Nat) : Int) :: ((m + 1 : Nat) : Int) :: ticksFrom m
          from rfl]
      rw [List.getLast?_cons_cons]
      exact ih (Nat.succ_pos m)

lemma ticksFrom_chain (n : Nat) :
    List.Chain' (fun a b : Int => a > b) (ticksFrom n) := by
  induction n with
  | zero => simp [ticksFrom]
  | succ k ih =>
    rw [show ticksFrom (k + 1) = ((k + 1 : Nat) : Int) :: ticksFrom k from rfl]
    rw [List.chain'_cons']
    refine ⟨?_, ih⟩
    intro y hy
    cases k with
    | zero => simp [ticksFrom] at hy
    | succ m =>
      rw [ticksFrom_head (m + 1) (Nat.succ_pos m)] at hy
      simp only [Option.mem_def, Option.some.injEq] at hy
      subst hy
      push_cast
      omega

/-- C1: authentication succeeds exactly when the presented optional
credential equals the configured secret as a string (case-sensitive
exact equality); in particular an absent credential is rejected. -/
theorem c1_authenticate_iff (c : Option String) (secret : String) :
    (authenticate c secret = true ↔ c = some secret)
    ∧ authenticate none secret = false := by
  constructor
  · simp [authenticate]
  · simp [authenticate]

/-- C2: a submit request whose presented credential does not equal the
configured secret gets the 401 Unauthorized response, creates no job,
and never reaches the executor: the whole served trace is empty. -/
theorem c2_unauthorized_spawns_nothing (cfg : Config)
    (hdr q : Option String) (j : Bool) (bk : Option String) (now : String)
    (p : String) (os : String → Except Unit Int)
    (h : authenticate (extract_api_key hdr q j bk) cfg.api_key = false) :
    shutdown_route cfg hdr q j bk now = (RouteResponse.unauthorized, [])
    ∧ restart_route cfg hdr q j bk now = (RouteResponse.unauthorized, [])
    ∧ serve_shutdown cfg p os hdr q j bk now = (RouteResponse.unauthorized, [])
    ∧ serve_restart cfg p os hdr q j bk now = (RouteResponse.unauthorized, [])
    ∧ statusCode (shutdown_route cfg hdr q j bk now).1 = 401 := by
  refine ⟨?_, ?_, ?_, ?_, ?_⟩ <;>
    simp [shutdown_route, restart_route, serve_shutdown, serve_restart,
      statusCode, h]

theorem c2_unauthorized_spawns_nothing_witness :
    authenticate
        (extract_api_key (some "wrong-key") none false none)
        defaultConfig.api_key = false
    ∧ shutdown_route defaultConfig (some "wrong-key") none false none "t"
        = (RouteResponse.unauthorized, [])
    ∧ restart_route defaultConfig (some "wrong-key") none false none "t"
        = (RouteResponse.unauthorized, [])
    ∧ serve_shutdown defaultConfig "linux" (fun _ => Except.ok 0)
        (some "wrong-key") none false none "t"
        = (RouteResponse.unauthorized, [])
    ∧ serve_restart defaultConfig "linux" (fun _ => Except.ok 0)
        (some "wrong-key") none false none "t"
        = (RouteResponse.unauthorized, [])
    ∧ statusCode
        (shutdown_route defaultConfig (some "wrong-key") none false none "t").1
        = 401 := by
  have h : authenticate
      (extract_api_key (some "wrong-key") none false none)
      defaultConfig.api_key = false := by decide
  exact ⟨h, c2_unauthorized_spawns_nothing defaultConfig (some "wrong-key")
    none false none "t" "linux" (fun _ => Except.ok 0) h⟩

lemma shutdownCommand_unsupported (p : String)
    (h1 : p ≠ "win32") (h2 : p ≠ "linux") (h3 : p ≠ "darwin") :
    shutdownCommand p = none := by
  simp [shutdownCommand, h1, h2, h3]

lemma restartCommand_unsupported (p : String)
    (h1 : p ≠ "win32") (h2 : p ≠ "linux") (h3 : p ≠ "darwin") :
    restartCommand p = none := by
  simp [restartCommand, h1, h2, h3]

/-- C4: on any platform tag other than `win32`, `linux` and `darwin`,
both executors return the failure result and their traces contain no
`os.system` invocation at all. -/
theorem c4_unsupported_platform (cfg : Config) (p : String)
    (os : String → Except Unit Int)
    (h1 : p ≠ "win32") (h2 : p ≠ "linux") (h3 : p ≠ "darwin") :
    (shutdown_system cfg p os).2 = false
    ∧ (∀ e ∈ (shutdown_system cfg p os).1, ∀ c, e ≠ Event.exec c)
    ∧ (restart_system cfg p os).2 = false
    ∧ (∀ e ∈ (restart_system cfg p os).1, ∀ c, e ≠ Event.exec c) := by
  have hs := shutdownCommand_unsupported p h1 h2 h3
  have hr := restartCommand_unsupported p h1 h2 h3
  refine ⟨?_, ?_, ?_, ?_⟩
  · simp [shutdown_system, hs]
  · intro e he c
    simp only [shutdown_system, hs, List.mem_map] at he
    obtain ⟨t, _, rfl⟩ := he
    simp
  · simp [restart_system, hr]
  · intro e he c
    simp only [restart_system, hr, List.mem_map] at he
    obtain ⟨t, _, rfl⟩ := he
    simp

theorem c4_unsupported_platform_witness :
    ("freebsd" ≠ "win32" ∧ "freebsd" ≠ "linux" ∧ "freebsd" ≠ "darwin")
    ∧ ((shutdown_system defaultConfig "freebsd" (fun _ => Except.ok 0)).2 = false
      ∧ (∀ e ∈ (shutdown_system defaultConfig "freebsd"
            (fun _ => Except.ok 0)).1, ∀ c, e ≠ Event.exec c)
      ∧ (restart_system defaultConfig "freebsd" (fun _ => Except.ok 0)).2 = false
      ∧ (∀ e ∈ (restart_system defaultConfig "freebsd"
            (fun _ => Except.ok 0)).1, ∀ c, e ≠ Event.exec c)) :=
  ⟨⟨by decide, by decide, by decide⟩,
    c4_unsupported_platform defaultConfig "freebsd" (fun _ => Except.ok 0)
      (by decide) (by decide) (by decide)⟩

/-- C5 counterexample: on Linux, with `os.system` returning exit status
127 - the shell's "command not found" status, i.e. the underlying OS
command failed to launch - both executors still report success, because
the code never inspects the value `os.system` returns. -/
theorem c5_exit_status_ignored_cex :
    (shutdown_system defaultConfig "linux" (fun _ => Except.ok 127)).2 = true
    ∧ (restart_system defaultConfig "linux" (fun _ => Except.ok 127)).2 = true := by
  constructor <;> rfl

/-- C5 (amended): on a supported platform the result distinguishes only
whether the `os.system` call itself raised: it is `true` exactly when
`os.system` returned (with any exit status, inspected by nobody), and
`false` exactly when the call raised an exception. -/
theorem c5_result_is_launch_of_os_system (cfg : Config) (p : String)
    (os : String → Except Unit Int) :
    (∀ cmd, shutdownCommand p = some cmd →
      ((shutdown_system cfg p os).2 = true ↔ (os cmd).toOption.isSome = true))
    ∧ (∀ cmd, restartCommand p = some cmd →
      ((restart_system cfg p os).2 = true ↔ (os cmd).toOption.isSome = true)) := by
  constructor
  · intro cmd hc
    cases hos : os cmd <;> simp [shutdown_system, hc, hos, Except.toOption]
  · intro cmd hc
    cases hos : os cmd <;> simp [restart_system, hc, hos, Except.toOption]

theorem c5_result_is_launch_of_os_system_witness :
    shutdownCommand "linux" = some "sudo shutdown -h now"
    ∧ ((shutdown_system defaultConfig "linux" (fun _ => Except.error ())).2 = true
        ↔ (((fun _ => Except.error ()) : String → Except Unit Int)
            "sudo shutdown -h now").toOption.isSome = true) :=
  ⟨rfl, (c5_result_is_launch_of_os_system defaultConfig "linux"
    (fun _ => Except.error ())).1 "sudo shutdown -h now" rfl⟩

/-- C6 counterexample: with a configured delay of 1 second the countdown
emits exactly one tick, reporting 1 second remaining; no tick with value
0 is ever emitted, so the ticks do not go down to 0 inclusive as the
claim states. -/
theorem c6_no_zero_tick_cex :
    countdownTicks (1 : Int) = [1]
    ∧ Event.tick 0 ∉ (shutdown_system { defaultConfig with shutdown_delay := 1 }
        "linux" (fun _ => Except.ok 0)).1
    ∧ (shutdown_system { defaultConfig with shutdown_delay := 1 }
        "linux" (fun _ => Except.ok 0)).1
      = [Event.tick 1, Event.exec "sudo shutdown -h now"] := by
  refine ⟨rfl, by decide, rfl⟩

/-- C6 (amended): for every non-negative configured delay the countdown
emits one tick per second, strictly decreasing from `delaySeconds` down
to 1 inclusive (no tick for 0, and none at all when the delay is 0), and
in both executors every `os.system` invocation occurs only after all
ticks have elapsed, i.e. once the remaining count has reached 0. -/
theorem c6_countdown_ticks (cfg : Config) (p : String)
    (os : String → Except Unit Int) (h : 0 ≤ cfg.shutdown_delay) :
    List.Chain' (fun a b : Int => a > b) (countdownTicks cfg.shutdown_delay)
    ∧ (countdownTicks cfg.shutdown_delay).length = cfg.shutdown_delay.toNat
    ∧ (0 < cfg.shutdown_delay →
        (countdownTicks cfg.shutdown_delay).head? = some cfg.shutdown_delay
        ∧ (countdownTicks cfg.shutdown_delay).getLast? = some 1)
    ∧ (∃ es, (shutdown_system cfg p os).1
        = (countdownTicks cfg.shutdown_delay).map Event.tick ++ es
        ∧ ∀ e ∈ es, ∃ c, e = Event.exec c)
    ∧ (∃ es, (restart_system cfg p os).1
        = (countdownTicks cfg.shutdown_delay).map Event.tick ++ es
        ∧ ∀ e ∈ es, ∃ c, e = Event.exec c) := by
  refine ⟨ticksFrom_chain _, ticksFrom_length _, ?_, ?_, ?_⟩
  · intro hpos
    have hn : 0 < cfg.shutdown_delay.toNat := by omega
    constructor
    · rw [countdownTicks, ticksFrom_head _ hn, Int.toNat_of_nonneg h]
    · exact ticksFrom_getLast _ hn
  · cases hc : shutdownCommand p with
    | none => exact ⟨[], by simp [shutdown_system, hc], by simp⟩
    | some cmd =>
      cases hos : os cmd with
      | ok v =>
        exact ⟨[Event.exec cmd], by simp [shutdown_system, hc, hos],
          by simp⟩
      | error e =>
        exact ⟨[Event.exec cmd], by simp [shutdown_system, hc, hos],
          by simp⟩
  · cases hc : restartCommand p with
    | none => exact ⟨[], by simp [restart_system, hc], by simp⟩
    | some cmd =>
      cases hos : os cmd with
      | ok v =>
        exact ⟨[Event.exec cmd], by simp [restart_system, hc, hos],
          by simp⟩
      | error e =>
        exact ⟨[Event.exec cmd], by simp [restart_system, hc, hos],
          by simp⟩

theorem c6_countdown_ticks_witness :
    (0 : Int) ≤ defaultConfig.shutdown_delay
    ∧ (List.Chain' (fun a b : Int => a > b)
          (countdownTicks defaultConfig.shutdown_delay)
      ∧ (countdownTicks defaultConfig.shutdown_delay).length
          = defaultConfig.shutdown_delay.toNat
      ∧ (0 < defaultConfig.shutdown_delay →
          (countdownTicks defaultConfig.shutdown_delay).head?
              = some defaultConfig.shutdown_delay
          ∧ (countdownTicks defaultConfig.shutdown_delay).getLast? = some 1)
      ∧ (∃ es, (shutdown_system defaultConfig "linux" (fun _ => Except.ok 0)).1
          = (countdownTicks defaultConfig.shutdown_delay).map Event.tick ++ es
          ∧ ∀ e ∈ es, ∃ c, e = Event.exec c)
      ∧ (∃ es, (restart_system defaultConfig "linux" (fun _ => Except.ok 0)).1
          = (countdownTicks defaultConfig.shutdown_delay).map Event.tick ++ es
          ∧ ∀ e ∈ es, ∃ c, e = Event.exec c)) :=
  ⟨by decide,
    c6_countdown_ticks defaultConfig "linux" (fun _ => Except.ok 0) (by decide)⟩

/-- C3 counterexample: with the default 5-second delay, two back-to-back
authenticated shutdown submits are both answered `Accepted` and two
countdown jobs are spawned - the second request, arriving while the
first job is still pending, is not rejected as Busy and the single
active-job invariant does not hold. -/
theorem c3_overlapping_jobs_cex :
    (processShutdownRequests defaultConfig
        [(some "change-this-secret-key", "t1"),
         (some "change-this-secret-key", "t2")]).1
      = [RouteResponse.accepted "Shutdown initiated" "Unknown" 5 "t1",
         RouteResponse.accepted "Shutdown initiated" "Unknown" 5 "t2"]
    ∧ (processShutdownRequests defaultConfig
        [(some "change-this-secret-key", "t1"),
         (some "change-this-secret-key", "t2")]).2
      = [PowerAction.shutdown, PowerAction.shutdown] := by
  exact ⟨rfl, rfl⟩

/-- C3 (amended): the gateway keeps no active-job state at all: every
authenticated submit unconditionally spawns a new countdown job and is
answered `Accepted` with the configured delay, every unauthenticated one
is answered `Unauthorized`, and no `Busy` rejection exists - so jobs
accumulate one per authenticated request and countdowns may overlap. -/
theorem c3_no_busy_rejection (cfg : Config)
    (reqs : List (Option String × String)) :
    processShutdownRequests cfg reqs
      = (reqs.map fun r =>
          if authenticate (extract_api_key r.1 none false none) cfg.api_key then
            RouteResponse.accepted "Shutdown initiated" cfg.device_name
              cfg.shutdown_delay r.2
          else RouteResponse.unauthorized,
        (reqs.filter fun r =>
          authenticate (extract_api_key r.1 none false none) cfg.api_key).map
          fun _ => PowerAction.shutdown) := by
  induction reqs with
  | nil => rfl
  | cons r rest ih =>
    obtain ⟨hdr, now⟩ := r
    cases hb : authenticate (extract_api_key hdr none false none) cfg.api_key <;>
      simp [processShutdownRequests, shutdown_route, hb, ih, List.filter_cons]

lemma truthy_none : truthy none = false := rfl

/-- C7: the credential compared against the secret is the first truthy
(non-empty, present) value among header, query parameter and JSON body
field, in that order; an empty or absent header falls through to the
query parameter, and an empty or absent query parameter falls through to
the body field of a JSON request. -/
theorem c7_extraction_order (hdr q bk v : Option String) :
    (([hdr, q, bk].find? truthy) = some v → extract_api_key hdr q true bk = v)
    ∧ (truthy hdr = false →
        ∀ j, extract_api_key hdr q j bk = extract_api_key none q j bk)
    ∧ (truthy q = false →
        extract_api_key hdr q true bk = extract_api_key hdr none true bk)
    ∧ (truthy hdr = true → ∀ j, extract_api_key hdr q j bk = hdr) := by
  refine ⟨?_, ?_, ?_, ?_⟩
  · intro hfind
    cases hh : truthy hdr with
    | true =>
      simp only [List.find?, hh] at hfind
      cases hfind
      simp [extract_api_key, hh]
    | false =>
      cases hq : truthy q with
      | true =>
        simp only [List.find?, hh, hq] at hfind
        cases hfind
        simp [extract_api_key, hh, hq]
      | false =>
        cases hbk : truthy bk with
        | true =>
          simp only [List.find?, hh, hq, hbk] at hfind
          cases hfind
          simp [extract_api_key, hh, hq]
        | false =>
          simp only [List.find?, hh, hq, hbk] at hfind
          cases hfind
  · intro hh j
    simp [extract_api_key, hh, truthy_none]
  · intro hq
    cases hh : truthy hdr <;> simp [extract_api_key, hh, hq, truthy_none]
  · intro hh j
    simp [extract_api_key, hh]

theorem c7_extraction_order_witness :
    ([some "", none, some "body-key"].find? truthy = some (some "body-key"))
    ∧ extract_api_key (some "") none true (some "body-key") = some "body-key" :=
  ⟨by decide,
    (c7_extraction_order (some "") none (some "body-key") (some "body-key")).1
      (by decide)⟩

/-- C8 counterexample: a configuration whose secret is the mask string
itself makes the masked `/config` output contain the literal configured
credential, so the output is not credential-free for every configuration
state. -/
theorem c8_mask_collision_cex :
    ({ defaultConfig with api_key := "***hidden***" } : Config).api_key
      ∈ configStrings (get_config { defaultConfig with api_key := "***hidden***" }) := by
  decide

/-- C8 (amended): `/config` returns the configuration with the
`api_key` field replaced by `"***hidden***"` and every other field
unchanged; whenever the configured credential differs from the mask and
from the host, device-name and log-file values, the output contains the
credential nowhere. -/
theorem c8_config_masked (cfg : Config)
    (h1 : cfg.api_key ≠ "***hidden***") (h2 : cfg.api_key ≠ cfg.host)
    (h3 : cfg.api_key ≠ cfg.device_name) (h4 : cfg.api_key ≠ cfg.log_file) :
    (get_config cfg).api_key = "***hidden***"
    ∧ (get_config cfg).host = cfg.host
    ∧ (get_config cfg).device_name = cfg.device_name
    ∧ (get_config cfg).log_file = cfg.log_file
    ∧ (get_config cfg).port = cfg.port
    ∧ (get_config cfg).shutdown_delay = cfg.shutdown_delay
    ∧ cfg.api_key ∉ configStrings (get_config cfg) := by
  refine ⟨rfl, rfl, rfl, rfl, rfl, rfl, ?_⟩
  simp [configStrings, get_config, h1, h2, h3, h4]

theorem c8_config_masked_witness :
    (defaultConfig.api_key ≠ "***hidden***"
      ∧ defaultConfig.api_key ≠ defaultConfig.host
      ∧ defaultConfig.api_key ≠ defaultConfig.device_name
      ∧ defaultConfig.api_key ≠ defaultConfig.log_file)
    ∧ defaultConfig.api_key ∉ configStrings (get_config defaultConfig) :=
  ⟨⟨by decide, by decide, by decide, by decide⟩,
    (c8_config_masked defaultConfig (by decide) (by decide) (by decide)
      (by decide)).2.2.2.2.2.2⟩

/-- C9: an authenticated submit is answered with the fixed `Accepted`
shape - message, device name, configured delay and timestamp, HTTP
200 - computed before any thread runs, and the response is identical
whatever platform the executor later dispatches on and whatever the
`os.system` oracle does, i.e. whether the eventual execution succeeds or
fails. -/
theorem c9_accepted_shape_fixed (cfg : Config) (p1 p2 : String)
    (os1 os2 : String → Except Unit Int) (hdr q : Option String) (j : Bool)
    (bk : Option String) (now : String)
    (h : authenticate (extract_api_key hdr q j bk) cfg.api_key = true) :
    (serve_shutdown cfg p1 os1 hdr q j bk now).1
      = RouteResponse.accepted "Shutdown initiated" cfg.device_name
          cfg.shutdown_delay now
    ∧ (serve_shutdown cfg p1 os1 hdr q j bk now).1
      = (serve_shutdown cfg p2 os2 hdr q j bk now).1
    ∧ (serve_restart cfg p1 os1 hdr q j bk now).1
      = RouteResponse.accepted "Restart initiated" cfg.device_name
          cfg.shutdown_delay now
    ∧ (serve_restart cfg p1 os1 hdr q j bk now).1
      = (serve_restart cfg p2 os2 hdr q j bk now).1
    ∧ statusCode (serve_shutdown cfg p1 os1 hdr q j bk now).1 = 200 := by
  refine ⟨?_, ?_, ?_, ?_, ?_⟩ <;>
    simp [serve_shutdown, serve_restart, shutdown_route, restart_route,
      statusCode, h]

theorem c9_accepted_shape_fixed_witness :
    authenticate
        (extract_api_key (some "change-this-secret-key") none false none)
        defaultConfig.api_key = true
    ∧ (serve_shutdown defaultConfig "linux" (fun _ => Except.ok 0)
          (some "change-this-secret-key") none false none "t").1
        = RouteResponse.accepted "Shutdown initiated"
            defaultConfig.device_name defaultConfig.shutdown_delay "t" :=
  ⟨by decide,
    (c9_accepted_shape_fixed defaultConfig "linux" "win32"
      (fun _ => Except.ok 0) (fun _ => Except.error ())
      (some "change-this-secret-key") none false none "t" (by decide)).1⟩

/-- C10: a command-line override whose parsed value is falsy is silently
ignored: `--port 0` and `--delay 0` leave the configured port and delay
unchanged, and no argument vector at all can make the resulting
shutdown delay 0 unless the loaded configuration already had delay 0. -/
theorem c10_falsy_overrides_ignored (cfg : Config) (a : Args)
    (hp : a.port = some 0) (hd : a.delay = some 0) :
    (applyOverrides cfg a).port = cfg.port
    ∧ (applyOverrides cfg a).shutdown_delay = cfg.shutdown_delay
    ∧ ∀ a2 : Args, (applyOverrides cfg a2).shutdown_delay = 0 →
        cfg.shutdown_delay = 0 := by
  have hport : ∀ (c : Config) (k : Option String),
      (overrideApiKey c k).port = c.port := by
    intro c k
    cases k with
    | none => rfl
    | some s =>
      by_cases hs : s.isEmpty <;> simp [overrideApiKey, hs]
  have hportD : ∀ (c : Config) (d : Option String),
      (overrideDeviceName c d).port = c.port := by
    intro c d
    cases d with
    | none => rfl
    | some s =>
      by_cases hs : s.isEmpty <;> simp [overrideDeviceName, hs]
  have hportDelay : ∀ (c : Config) (d : Option Int),
      (overrideDelay c d).port = c.port := by
    intro c d
    cases d with
    | none => rfl
    | some v =>
      by_cases hv : v = 0 <;> simp [overrideDelay, hv]
  have hdelayP : ∀ (c : Config) (v : Option Int),
      (overridePort c v).shutdown_delay = c.shutdown_delay := by
    intro c v
    cases v with
    | none => rfl
    | some n =>
      by_cases hn : n = 0 <;> simp [overridePort, hn]
  have hdelayK : ∀ (c : Config) (k : Option String),
      (overrideApiKey c k).shutdown_delay = c.shutdown_delay := by
    intro c k
    cases k with
    | none => rfl
    | some s =>
      by_cases hs : s.isEmpty <;> simp [overrideApiKey, hs]
  have hdelayD : ∀ (c : Config) (d : Option String),
      (overrideDeviceName c d).shutdown_delay = c.shutdown_delay := by
    intro c d
    cases d with
    | none => rfl
    | some s =>
      by_cases hs : s.isEmpty <;> simp [overrideDeviceName, hs]
  refine ⟨?_, ?_, ?_⟩
  · simp [applyOverrides, hp, hportDelay, hportD, hport, overridePort]
  · simp [applyOverrides, hd, overrideDelay, hdelayD, hdelayK, hdelayP]
  · intro a2 h2
    rw [applyOverrides] at h2
    cases ha : a2.delay with
    | none =>
      rw [ha, overrideDelay] at h2
      rw [hdelayD, hdelayK, hdelayP] at h2
      exact h2
    | some v =>
      rw [ha] at h2
      by_cases hv : v = 0
      · subst hv
        have hzero : ∀ c : Config, overrideDelay c (some 0) = c := by
          intro c
          simp [overrideDelay]
        rw [hzero, hdelayD, hdelayK, hdelayP] at h2
        exact h2
      · simp only [overrideDelay, if_neg hv] at h2
        exact absurd h2 hv

theorem c10_falsy_overrides_ignored_witness :
    ((Args.mk (some 0) none none (some 0)).port = some 0
      ∧ (Args.mk (some 0) none none (some 0)).delay = some 0)
    ∧ (applyOverrides defaultConfig
        (Args.mk (some 0) none none (some 0))).port = defaultConfig.port
    ∧ (applyOverrides defaultConfig
        (Args.mk (some 0) none none (some 0))).shutdown_delay
      = defaultConfig.shutdown_delay :=
  ⟨⟨rfl, rfl⟩,
    (c10_falsy_overrides_ignored defaultConfig
      (Args.mk (some 0) none none (some 0)) rfl rfl).1,
    (c10_falsy_overrides_ignored defaultConfig
      (Args.mk (some 0) none none (some 0)) rfl rfl).2.1⟩
